import Mathlib

/-!
Verification development for the MAX messenger relay server.

The model below is a shallow embedding of the WebSocket relay logic of
src/server.ts: the in-memory client registry (a JS Map from user id to
WebSocket), the SQLite-backed message store (table messages with an
AUTOINCREMENT id and a CURRENT_TIMESTAMP default), the per-connection
message handler installed by wss.on, the close handler, and the
/api/messages/:otherId history endpoint.

Conventions of the embedding:
- JS numbers appearing as user ids are modelled as Int (the server only
  ever signs integral ids); connection (WebSocket) instances are named by
  a ConnId : Nat, and instance identity is ConnId equality.
- Bytes received on the socket are modelled as Option Json: some j is a
  payload that JSON.parse accepts, none is any payload on which
  JSON.parse throws. An Except Unit result models an exception escaping
  the handler.
- Clock instants are Nat milliseconds since the Unix epoch. SQLite's
  CURRENT_TIMESTAMP records the instant at second precision and renders
  it as a space-separated DATETIME text; new Date().toISOString() renders
  the millisecond instant in ISO-8601. Both renderings are implemented
  below. Rows carry the second-precision instant; the DATETIME text
  stored in the column is sqliteTimestamp of it, and since that rendering
  is fixed-width and zero-padded for years 1000..9999, ORDER BY on the
  column text coincides with Nat order on the instants, which is how the
  history query is modelled.
-/

namespace MaxRelay

/-- Connection identifier: names one WebSocket instance. -/
abbrev ConnId := Nat

/-- Parsed JSON values, the result type of JSON.parse. -/
inductive Json where
  | null : Json
  | bool : Bool → Json
  | num : Int → Json
  | str : String → Json
  | arr : List Json → Json
  | obj : List (String × Json) → Json

/-- Property access j.k as JavaScript evaluates it on a JSON.parse result:
an object yields the value of its last binding for the key (JSON.parse
keeps the last duplicate), any other non-null value yields undefined
(modelled none). Reading a property of null throws, which jsProp does not
cover; the handler treats that case separately. -/
def jsProp (j : Json) (k : String) : Option Json :=
  match j with
  | .obj fields => (fields.foldl (fun acc p => if p.1 = k then some p.2 else acc) none)
  | _ => none

/-- Property access that models the TypeError JavaScript raises when the
base value is null: .error is the thrown exception. -/
def jsPropChecked (j : Json) (k : String) : Except Unit (Option Json) :=
  match j with
  | .null => .error ()
  | _ => .ok (jsProp j k)

/-- Strict equality of a possibly-undefined JavaScript value with a string
literal, as in message.type === 'auth'. -/
def isStrEq (v : Option Json) (s : String) : Bool :=
  match v with
  | some (.str t) => t = s
  | _ => false

/-- SQLite storage classes that the server can end up storing in a
column: INTEGER, TEXT or NULL. -/
inductive SqlVal where
  | intV : Int → SqlVal
  | textV : String → SqlVal
  | nullV : SqlVal
deriving DecidableEq, Repr

/-- Digit-list accumulator for integer literals: consumes decimal digits,
failing on any other character; the accumulator is none until the first
digit so that an empty digit string is rejected. -/
def digitsVal : List Char → Option Nat → Option Nat
  | [], acc => acc
  | c :: cs, acc =>
    if ('0' ≤ c ∧ c ≤ '9') then
      match acc with
      | some a => digitsVal cs (some (a * 10 + (c.toNat - 48)))
      | none => digitsVal cs (some (c.toNat - 48))
    else none

/-- Well-formed integer literals as SQLite's numeric affinity recognises
them in a TEXT value: an optional sign followed by one or more decimal
digits. -/
def parseIntText (s : String) : Option Int :=
  match s.data with
  | '-' :: cs => (digitsVal cs none).map (fun n => -(n : Int))
  | '+' :: cs => (digitsVal cs none).map (fun n => (n : Int))
  | cs => (digitsVal cs none).map (fun n => (n : Int))

/-- INTEGER column affinity applied to a value: TEXT that is a well-formed
integer literal is converted to INTEGER, everything else is stored
unchanged. -/
def integerAffinity (v : SqlVal) : SqlVal :=
  match v with
  | .textV s =>
    match parseIntText s with
    | some n => .intV n
    | none => .textV s
  | v => v

/-- Rendering of an Int the way SQLite's TEXT affinity renders an INTEGER
operand (and the way JavaScript's template/string conversion would). -/
def intText (n : Int) : String := toString n

/-- TEXT column affinity applied to a value: numbers are rendered as
text, TEXT and NULL are stored unchanged. -/
def textAffinity (v : SqlVal) : SqlVal :=
  match v with
  | .intV n => .textV (intText n)
  | v => v

/-- Equality as SQLite's = operator decides it in a WHERE clause between
two stored values of these storage classes: NULL compares false with
everything (a NULL comparison result is not true), INTEGER and TEXT
values of different classes are never equal, same-class values compare
componentwise. -/
def sqlEq (a b : SqlVal) : Bool :=
  match a, b with
  | .intV m, .intV n => m = n
  | .textV s, .textV t => s = t
  | _, _ => false

/-- Binding of a JavaScript value (an Option Json; none is undefined)
into an INTEGER-affinity column by better-sqlite3 followed by column
affinity: numbers and strings and null bind, undefined and booleans and
arrays and objects raise a TypeError (.error). -/
def bindIntegerAffinity (v : Option Json) : Except Unit SqlVal :=
  match v with
  | some (.num n) => .ok (integerAffinity (.intV n))
  | some (.str s) => .ok (integerAffinity (.textV s))
  | some .null => .ok .nullV
  | _ => .error ()

/-- Binding of a JavaScript value into a TEXT-affinity column by
better-sqlite3 followed by column affinity; same bindability rules. -/
def bindTextAffinity (v : Option Json) : Except Unit SqlVal :=
  match v with
  | some (.num n) => .ok (textAffinity (.intV n))
  | some (.str s) => .ok (textAffinity (.textV s))
  | some .null => .ok .nullV
  | _ => .error ()

/-- JavaScript truthiness of the session's userId variable, whose JS type
is number or null: null and 0 are falsy. -/
def truthy (uid : Option Int) : Bool :=
  match uid with
  | some n => n ≠ 0
  | none => false

/-! The clients registry: `const clients = new Map<number, WebSocket>()`.
A JS Map is modelled as an association list with unique keys (a Map never
holds two entries for one key); set replaces in place or appends, delete
removes the key's entry, get finds it. -/

/-- Registry state: user id to connection, in Map insertion order. -/
abbrev Registry := List (Int × ConnId)

/-- Map.set: replace the existing entry for the key in place, else
append. -/
def mapSet : Registry → Int → ConnId → Registry
  | [], k, v => [(k, v)]
  | p :: ps, k, v => if p.1 = k then (k, v) :: ps else p :: mapSet ps k v

/-- Map.delete: remove the entry for the key. On the unique-key lists a
Map can produce this equals removing the first match. -/
def mapDelete : Registry → Int → Registry
  | [], _ => []
  | p :: ps, k => if p.1 = k then mapDelete ps k else p :: mapDelete ps k

/-- Map.get: the connection registered for the key, if any. -/
def mapGet (m : Registry) (k : Int) : Option ConnId :=
  match m with
  | [] => none
  | p :: ps => if p.1 = k then some p.2 else mapGet ps k

/-! Clock rendering. The store's CURRENT_TIMESTAMP default renders the
current UTC instant at second precision as YYYY-MM-DD HH:MM:SS; the
session's new Date().toISOString() renders the millisecond instant as
YYYY-MM-DDTHH:MM:SS.mmmZ. -/

/-- Civil date (year, month, day) of a day count since 1970-01-01,
following the standard days-to-civil algorithm, valid for non-negative
day counts. -/
def civilFromDays (z : Nat) : Nat × Nat × Nat :=
  let zs := z + 719468
  let era := zs / 146097
  let doe := zs % 146097
  let yoe := (doe - doe / 1460 + doe / 36524 - doe / 146096) / 365
  let y := yoe + era * 400
  let doy := doe - (365 * yoe + yoe / 4 - yoe / 100)
  let mp := (5 * doy + 2) / 153
  let d := doy - (153 * mp + 2) / 5 + 1
  let m := if mp < 10 then mp + 3 else mp - 9
  (if m ≤ 2 then y + 1 else y, m, d)

/-- Zero-pad the decimal rendering of n to at least w characters. -/
def pad (w n : Nat) : String :=
  let s := toString n
  String.mk (List.replicate (w - s.length) '0') ++ s

/-- The DATETIME text SQLite's CURRENT_TIMESTAMP stores for the UTC
instant at secs seconds since the epoch. -/
def sqliteTimestamp (secs : Nat) : String :=
  let ymd := civilFromDays (secs / 86400)
  let rem := secs % 86400
  pad 4 ymd.1 ++ "-" ++ pad 2 ymd.2.1 ++ "-" ++ pad 2 ymd.2.2 ++ " " ++
    pad 2 (rem / 3600) ++ ":" ++ pad 2 (rem % 3600 / 60) ++ ":" ++ pad 2 (rem % 60)

/-- The string new Date().toISOString() produces for the instant at ms
milliseconds since the epoch. -/
def isoTimestamp (ms : Nat) : String :=
  let secs := ms / 1000
  let ymd := civilFromDays (secs / 86400)
  let rem := secs % 86400
  pad 4 ymd.1 ++ "-" ++ pad 2 ymd.2.1 ++ "-" ++ pad 2 ymd.2.2 ++ "T" ++
    pad 2 (rem / 3600) ++ ":" ++ pad 2 (rem % 3600 / 60) ++ ":" ++ pad 2 (rem % 60) ++
    "." ++ pad 3 (ms % 1000) ++ "Z"

/-! The message store: table messages(id INTEGER PRIMARY KEY
AUTOINCREMENT, sender_id INTEGER, receiver_id INTEGER, content TEXT,
timestamp DATETIME DEFAULT CURRENT_TIMESTAMP). -/

/-- One row of the messages table. The timestamp field is the
second-precision instant CURRENT_TIMESTAMP recorded; the TEXT actually
stored in the column is sqliteTimestamp of it. -/
structure Row where
  id : Nat
  sender_id : SqlVal
  receiver_id : SqlVal
  content : SqlVal
  timestamp : Nat
deriving DecidableEq, Repr

/-- The messages table: rows in rowid order together with the
AUTOINCREMENT sequence value (the largest id ever assigned; ids start at
1). -/
structure Store where
  seq : Nat
  rows : List Row
deriving DecidableEq, Repr

/-- The store before any message was sent. -/
def Store.empty : Store := { seq := 0, rows := [] }

/-- Effect of INSERT INTO messages (sender_id, receiver_id, content)
VALUES (?, ?, ?) at second-instant nowSecs: AUTOINCREMENT assigns seq+1
as the new id, the bound values are stored under the columns' affinities,
and CURRENT_TIMESTAMP fills the timestamp. Returns the updated store and
info.lastInsertRowid. -/
def Store.insertMessage (st : Store) (sender receiver content : SqlVal)
    (nowSecs : Nat) : Store × Nat :=
  let newId := st.seq + 1
  ({ seq := newId,
     rows := st.rows ++ [{ id := newId, sender_id := sender,
                           receiver_id := receiver, content := content,
                           timestamp := nowSecs }] }, newId)

/-! The per-connection WebSocket handler of wss.on and its close
handler. -/

/-- Shared mutable server state the handlers touch: the database and the
clients Map. -/
structure SrvState where
  store : Store
  clients : Registry
deriving Repr

/-- The savedMsg object the send branch builds and serialises into the
pushed frame: id is info.lastInsertRowid, sender_id the session's userId,
receiver_id and content the raw values destructured from the frame, and
timestamp is new Date().toISOString(). -/
structure SavedMsg where
  id : Nat
  sender_id : Int
  receiver_id : Option Json
  content : Option Json
  timestamp : String

/-- Result of one normally-returning run of the message handler: the
session's userId variable, the shared state, the ws.send calls made (in
order, as connection-frame pairs), and whether ws.close was called on
this connection. -/
structure StepResult where
  userId : Option Int
  st : SrvState
  pushes : List (ConnId × SavedMsg)
  closed : Bool

/-- Lookup clients.get(receiverId) with the raw destructured receiverId:
a JS Map with number keys yields a hit only when the value is that
number (SameValueZero; a string never matches a number key). -/
def recvLookup (m : Registry) (v : Option Json) : Option ConnId :=
  match v with
  | some (.num n) => mapGet m n
  | _ => none

/-- The send branch of the handler, entered when message.type is
'message' and userId is truthy (u is the session's userId): destructure
receiverId and content, INSERT the row (binding failures propagate as
exceptions), build savedMsg, push it to the receiver's registered
connection when present with readyState OPEN, and always echo it to the
sending connection. -/
def handleSend (isOpen : ConnId → Bool) (self : ConnId) (u : Int)
    (st : SrvState) (now : Nat) (msg : Json) : Except Unit StepResult :=
  let ridJ := jsProp msg ("receiverId")
  let cJ := jsProp msg ("content")
  match bindIntegerAffinity ridJ, bindTextAffinity cJ with
  | .ok ridV, .ok cV =>
    let ins := st.store.insertMessage (.intV u) ridV cV (now / 1000)
    let saved : SavedMsg :=
      { id := ins.2, sender_id := u, receiver_id := ridJ, content := cJ,
        timestamp := isoTimestamp now }
    let recvPush :=
      match recvLookup st.clients ridJ with
      | some rw => if isOpen rw then [(rw, saved)] else []
      | none => []
    .ok { userId := some u, st := { st with store := ins.1 },
          pushes := recvPush ++ [(self, saved)], closed := false }
  | _, _ => .error ()

/-- One run of the ws.on message callback for connection self whose
session variable userId currently holds uid, at instant now (ms), on
inbound bytes data (none: bytes JSON.parse rejects). verify models
jwt.verify against JWT_SECRET, returning the token's id claim or none
when verification throws; isOpen models readyState === OPEN. An .error
result is an exception escaping the handler. -/
def handleMessage (verify : String → Option Int) (isOpen : ConnId → Bool)
    (self : ConnId) (uid : Option Int) (st : SrvState) (now : Nat)
    (data : Option Json) : Except Unit StepResult :=
  match data with
  | none => .error ()
  | some msg =>
    match jsPropChecked msg ("type") with
    | .error _ => .error ()
    | .ok tv =>
      if isStrEq tv ("auth") then
        match jsProp msg ("token") with
        | some (.str tok) =>
          match verify tok with
          | some uidNew =>
            .ok { userId := some uidNew,
                  st := { st with clients :=
                    if uidNew ≠ 0 then mapSet st.clients uidNew self
                    else st.clients },
                  pushes := [], closed := false }
          | none => .ok { userId := uid, st := st, pushes := [], closed := true }
        | _ => .ok { userId := uid, st := st, pushes := [], closed := true }
      else
        if isStrEq tv ("message") && truthy uid then
          match uid with
          | some u => handleSend isOpen self u st now msg
          | none => .ok { userId := uid, st := st, pushes := [], closed := false }
        else
          .ok { userId := uid, st := st, pushes := [], closed := false }

/-- The ws.on close callback: if (userId) clients.delete(userId). -/
def handleClose (uid : Option Int) (st : SrvState) : SrvState :=
  if truthy uid then
    match uid with
    | some u => { st with clients := mapDelete st.clients u }
    | none => st
  else st

/-! The history endpoint GET /api/messages/:otherId. myId is the id claim
of the verified bearer token; otherId arrives as the raw TEXT path
parameter and is bound into the query, where comparison against the
INTEGER-affinity id columns applies integer affinity to it. -/

/-- The WHERE clause of the history query for one row. -/
def historyPred (myV otherV : SqlVal) (r : Row) : Bool :=
  (sqlEq r.sender_id myV && sqlEq r.receiver_id otherV) ||
    (sqlEq r.sender_id otherV && sqlEq r.receiver_id myV)

/-- Insert a row into a list sorted ascending by timestamp, after every
row with a strictly smaller timestamp and before the first row whose
timestamp is not smaller; keeps scan order among equal timestamps. -/
def insertAsc (r : Row) : List Row → List Row
  | [] => [r]
  | x :: xs => if x.timestamp < r.timestamp then x :: insertAsc r xs else r :: x :: xs

/-- ORDER BY timestamp ASC over a scan of the filtered rows in rowid
order, as a stable insertion sort on the recorded instants (the stored
DATETIME texts compare identically). -/
def orderByTimestamp (l : List Row) : List Row :=
  l.foldr insertAsc []

/-- The rows GET /api/messages/:otherId returns for a requester whose
token id is myId and path parameter otherId, against store st. -/
def historyQuery (st : Store) (myId : Int) (otherId : String) : List Row :=
  orderByTimestamp
    (st.rows.filter (historyPred (.intV myId) (integerAffinity (.textV otherId))))

/-! Observation helpers on a handler result, and concrete frames, tokens
and traces used to evaluate the model on explicit inputs. -/

/-- Session userId variable after a normally-returning handler run; an
escaped exception leaves it unobserved (none). -/
def okUserId (r : Except Unit StepResult) : Option Int :=
  match r with
  | .ok a => a.userId
  | .error _ => none

/-- Shared server state after a normally-returning handler run, with a
default for the exception case. -/
def okState (r : Except Unit StepResult) (d : SrvState) : SrvState :=
  match r with
  | .ok a => a.st
  | .error _ => d

/-- Rows of the messages table after a normally-returning handler run. -/
def okRows (r : Except Unit StepResult) : List Row :=
  match r with
  | .ok a => a.st.store.rows
  | .error _ => []

/-- The ws.send calls of a normally-returning handler run. -/
def okPushes (r : Except Unit StepResult) : List (ConnId × SavedMsg) :=
  match r with
  | .ok a => a.pushes
  | .error _ => []

/-- Connections a handler run pushed to, in send order. -/
def okPushTargets (r : Except Unit StepResult) : List ConnId :=
  (okPushes r).map Prod.fst

/-- Timestamps carried by the pushed frames of a handler run. -/
def okPushedTimestamps (r : Except Unit StepResult) : List String :=
  (okPushes r).map (fun p => p.2.timestamp)

/-- Message ids carried by the pushed frames of a handler run. -/
def okPushedIds (r : Except Unit StepResult) : List Nat :=
  (okPushes r).map (fun p => p.2.id)

/-- Whether ws.close was called during a normally-returning handler
run. -/
def okClosed (r : Except Unit StepResult) : Bool :=
  match r with
  | .ok a => a.closed
  | .error _ => false

/-- The DATETIME texts stored in the timestamp column of the rows after a
handler run. -/
def okRowStoredTexts (r : Except Unit StepResult) : List String :=
  (okRows r).map (fun x => sqliteTimestamp x.timestamp)

/-- An auth frame whose token property holds the JSON value j. -/
def authFrameJ (j : Json) : Json :=
  Json.obj [(("type"), Json.str ("auth")), (("token"), j)]

/-- The canonical auth frame with a string token. -/
def authFrame (tok : String) : Json := authFrameJ (Json.str tok)

/-- A send frame with a numeric receiverId and string content. -/
def sendFrame (r : Int) (s : String) : Json :=
  Json.obj [(("type"), Json.str ("message")), (("receiverId"), Json.num r),
    (("content"), Json.str s)]

/-- The savedMsg object a successful send built from these inputs. -/
def sendSaved (u : Int) (st : SrvState) (now : Nat) (r : Int) (s : String) : SavedMsg :=
  { id := st.store.seq + 1, sender_id := u, receiver_id := some (Json.num r),
    content := some (Json.str s), timestamp := isoTimestamp now }

/-- A well-formed frame of a type the session does not recognise. -/
def pingFrame : Json := Json.obj [(("type"), Json.str ("ping"))]

/-- A concrete credential-store model: three issued tokens, for user ids
7, 5 and 6; every other token fails verification. -/
def exVerify : String → Option Int := fun s =>
  if s = "tok7" then some 7
  else if s = "tok5" then some 5
  else if s = "tok6" then some 6
  else none

/-- A transport model in which every connection is OPEN. -/
def exOpen : ConnId → Bool := fun _ => true

/-- Fresh server state: empty store, empty registry. -/
def exState0 : SrvState := { store := Store.empty, clients := [] }

/-- Connection 1 authenticates as user 7. -/
def c1Step1 : Except Unit StepResult :=
  handleMessage exVerify exOpen 1 none exState0 0 (some (authFrame ("tok7")))

/-- Then connection 2 also authenticates as user 7, superseding the
registration of connection 1. -/
def c1AfterBoth : SrvState :=
  okState (handleMessage exVerify exOpen 2 none (okState c1Step1 exState0) 0
    (some (authFrame ("tok7")))) exState0

/-- Connection 1 authenticates as user 5... -/
def c3Step1 : Except Unit StepResult :=
  handleMessage exVerify exOpen 1 none exState0 0 (some (authFrame ("tok5")))

/-- ...and then re-authenticates as user 6 on the same transport. -/
def c3Step2 : Except Unit StepResult :=
  handleMessage exVerify exOpen 1 (okUserId c3Step1) (okState c3Step1 exState0) 0
    (some (authFrame ("tok6")))

/-- The registry after that connection's transport closes. -/
def c3Final : SrvState := handleClose (okUserId c3Step2) (okState c3Step2 exState0)

/-- An authenticated session on connection 1 (user 1) submits a send
frame with empty content to the nonexistent receiver identity 2, at
instant 1234 ms; the known users of this scenario are just [1]. -/
def exSendEmpty : Except Unit StepResult :=
  handleMessage exVerify exOpen 1 (some 1) exState0 1234 (some (sendFrame 2 ("")))

/-- The user identities that exist in the exSendEmpty scenario. -/
def exUsers : List Int := [1]

/-- After user 7's registration moved to connection 2, the stale session
on connection 1 (its userId variable still 7) submits a send to the
unregistered receiver 9. -/
def c6Send : Except Unit StepResult :=
  handleMessage exVerify exOpen 1 (okUserId c1Step1) c1AfterBoth 0
    (some (sendFrame 9 ("hi")))

/-- Ascending order the history contract asks for: strictly earlier
timestamp, or equal timestamps and strictly smaller id. -/
def rowLe (a b : Row) : Prop :=
  a.timestamp < b.timestamp ∨ (a.timestamp = b.timestamp ∧ a.id < b.id)

/-- One INSERT described by its three bound column values and the
second-precision instant of its CURRENT_TIMESTAMP. -/
def insOf (st : Store) (op : SqlVal × SqlVal × SqlVal × Nat) : Store :=
  (st.insertMessage op.1 op.2.1 op.2.2.1 op.2.2.2).1

/-- The store after a lifetime of appends, in submission order. -/
def runInserts (ops : List (SqlVal × SqlVal × SqlVal × Nat)) (st : Store) : Store :=
  ops.foldl insOf st

/-- Store invariant: every row id is at most the AUTOINCREMENT sequence
value, and row ids strictly increase in rowid order. -/
def StoreInv (st : Store) : Prop :=
  (∀ r ∈ st.rows, r.id ≤ st.seq) ∧ st.rows.Pairwise (fun a b => a.id < b.id)

/-- A store with a timestamp tie between rows 1 and 2 (both between
users 1 and 2), and a third row not between them. -/
def c5Store : Store :=
  { seq := 3,
    rows := [
      { id := 1, sender_id := .intV 1, receiver_id := .intV 2,
        content := .textV ("a"), timestamp := 5 },
      { id := 2, sender_id := .intV 2, receiver_id := .intV 1,
        content := .textV ("b"), timestamp := 5 },
      { id := 3, sender_id := .intV 1, receiver_id := .intV 3,
        content := .textV ("c"), timestamp := 4 }] }

/-! Helper lemmas: registry, the stable sort, SQL equality, the close
handler. -/

theorem mapGet_mapSet_self (m : Registry) (k : Int) (v : ConnId) :
    mapGet (mapSet m k v) k = some v := by
  induction m with
  | nil => simp [mapSet, mapGet]
  | cons p ps ih =>
    by_cases h : p.1 = k
    · simp [mapSet, mapGet, h]
    · simp [mapSet, mapGet, h, ih]

theorem mapGet_mapSet_ne (m : Registry) (k k' : Int) (v : ConnId) (h : k' ≠ k) :
    mapGet (mapSet m k v) k' = mapGet m k' := by
  induction m with
  | nil => simp [mapSet, mapGet, Ne.symm h]
  | cons p ps ih =>
    by_cases hp : p.1 = k
    · simp [mapSet, mapGet, hp, Ne.symm h]
    · by_cases hp' : p.1 = k'
      · simp [mapSet, mapGet, hp, hp', h]
      · simp [mapSet, mapGet, hp, hp', ih]

theorem mapGet_mapDelete_self (m : Registry) (k : Int) :
    mapGet (mapDelete m k) k = none := by
  induction m with
  | nil => simp [mapDelete, mapGet]
  | cons p ps ih =>
    by_cases h : p.1 = k
    · simp [mapDelete, h, ih]
    · simp [mapDelete, mapGet, h, ih]

theorem mapGet_mapDelete_ne (m : Registry) (k k' : Int) (h : k' ≠ k) :
    mapGet (mapDelete m k) k' = mapGet m k' := by
  induction m with
  | nil => simp [mapDelete, mapGet]
  | cons p ps ih =>
    by_cases hp : p.1 = k
    · simp [mapDelete, mapGet, hp, Ne.symm h, ih]
    · by_cases hp' : p.1 = k'
      · simp [mapDelete, mapGet, hp, hp', h]
      · simp [mapDelete, mapGet, hp, hp', ih]

theorem handleClose_some (u : Int) (st : SrvState) (h : u ≠ 0) :
    handleClose (some u) st = { st with clients := mapDelete st.clients u } := by
  simp [handleClose, truthy, h]

theorem insertAsc_perm (r : Row) (l : List Row) :
    (insertAsc r l).Perm (r :: l) := by
  induction l with
  | nil => exact List.Perm.refl _
  | cons x xs ih =>
    by_cases h : x.timestamp < r.timestamp
    · simpa [insertAsc, h] using ((ih.cons x).trans (List.Perm.swap r x xs))
    · simp [insertAsc, h]

theorem orderByTimestamp_perm (l : List Row) :
    (orderByTimestamp l).Perm l := by
  induction l with
  | nil => exact List.Perm.refl _
  | cons x xs ih =>
    have : orderByTimestamp (x :: xs) = insertAsc x (orderByTimestamp xs) := rfl
    rw [this]
    exact (insertAsc_perm x (orderByTimestamp xs)).trans (ih.cons x)

theorem rowLe_trans (a b c : Row) (hab : rowLe a b) (hbc : rowLe b c) : rowLe a c := by
  rcases hab with h1 | ⟨h1, h1'⟩ <;> rcases hbc with h2 | ⟨h2, h2'⟩ <;>
    unfold rowLe <;> omega

theorem insertAsc_pairwise (r : Row) (l : List Row)
    (hl : l.Pairwise rowLe)
    (hr : ∀ x ∈ l, r.timestamp = x.timestamp → r.id < x.id) :
    (insertAsc r l).Pairwise rowLe := by
  induction l with
  | nil => simp [insertAsc]
  | cons x xs ih =>
    rcases List.pairwise_cons.mp hl with ⟨hx, hxs⟩
    by_cases h : x.timestamp < r.timestamp
    · rw [show insertAsc r (x :: xs) = x :: insertAsc r xs from by simp [insertAsc, h]]
      refine List.pairwise_cons.mpr ⟨?_, ?_⟩
      · intro y hy
        rcases List.mem_cons.mp ((insertAsc_perm r xs).mem_iff.mp hy) with hy2 | hy2
        · rw [hy2]; exact Or.inl h
        · exact hx y hy2
      · exact ih hxs (fun y hy hts => hr y (List.mem_cons_of_mem x hy) hts)
    · rw [show insertAsc r (x :: xs) = r :: x :: xs from by simp [insertAsc, h]]
      have hrx : rowLe r x := by
        rcases Nat.lt_or_ge r.timestamp x.timestamp with h' | h'
        · exact Or.inl h'
        · have : r.timestamp = x.timestamp := by omega
          exact Or.inr ⟨this, hr x (List.mem_cons_self x xs) this⟩
      refine List.pairwise_cons.mpr ⟨?_, hl⟩
      intro y hy
      rcases List.mem_cons.mp hy with hy' | hy'
      · rw [hy']; exact hrx
      · exact rowLe_trans r x y hrx (hx y hy')

theorem orderByTimestamp_pairwise (l : List Row)
    (h : l.Pairwise (fun a b => a.id < b.id)) :
    (orderByTimestamp l).Pairwise rowLe := by
  induction l with
  | nil => simp [orderByTimestamp]
  | cons r xs ih =>
    rcases List.pairwise_cons.mp h with ⟨hr, hxs⟩
    have : orderByTimestamp (r :: xs) = insertAsc r (orderByTimestamp xs) := rfl
    rw [this]
    refine insertAsc_pairwise r (orderByTimestamp xs) (ih hxs) ?_
    intro x hx _
    exact hr x ((orderByTimestamp_perm xs).mem_iff.mp hx)

theorem sqlEq_intV_iff (v : SqlVal) (n : Int) :
    sqlEq v (.intV n) = true ↔ v = .intV n := by
  cases v <;> simp [sqlEq]

theorem historyQuery_of_parse (st : Store) (A B : Int) (sB : String)
    (hparse : parseIntText sB = some B) :
    historyQuery st A sB =
      orderByTimestamp (st.rows.filter (historyPred (.intV A) (.intV B))) := by
  simp [historyQuery, integerAffinity, hparse]

theorem handleMessage_send (verify : String → Option Int) (isOpen : ConnId → Bool)
    (self : ConnId) (u : Int) (st : SrvState) (now : Nat) (r : Int) (s : String)
    (hu : u ≠ 0) :
    handleMessage verify isOpen self (some u) st now (some (sendFrame r s)) =
      .ok { userId := some u,
            st := { st with store :=
              (st.store.insertMessage (.intV u) (.intV r) (.textV s) (now / 1000)).1 },
            pushes := (match mapGet st.clients r with
                       | some rw => if isOpen rw then [(rw, sendSaved u st now r s)] else []
                       | none => []) ++ [(self, sendSaved u st now r s)],
            closed := false } := by
  simp [handleMessage, sendFrame, jsPropChecked, jsProp, isStrEq, truthy, hu,
    handleSend, bindIntegerAffinity, bindTextAffinity, integerAffinity,
    textAffinity, recvLookup, sendSaved, Store.insertMessage]

theorem okClosed_handleSend (isOpen : ConnId → Bool) (self : ConnId) (u : Int)
    (st : SrvState) (now : Nat) (msg : Json) :
    okClosed (handleSend isOpen self u st now msg) = false := by
  unfold handleSend
  cases hb1 : bindIntegerAffinity (jsProp msg ("receiverId")) <;>
    cases hb2 : bindTextAffinity (jsProp msg ("content")) <;>
      simp [okClosed, hb1, hb2]

theorem storeInv_empty : StoreInv Store.empty := by
  constructor
  · intro r hr; simp [Store.empty] at hr
  · simp [Store.empty]

theorem storeInv_insert (st : Store) (a b c : SqlVal) (t : Nat)
    (h : StoreInv st) : StoreInv (st.insertMessage a b c t).1 := by
  rcases h with ⟨hle, hpw⟩
  constructor
  · intro r hr
    simp [Store.insertMessage] at hr
    rcases hr with hr | hr
    · exact Nat.le_succ_of_le (hle r hr)
    · rw [hr]; simp [Store.insertMessage]
  · simp [Store.insertMessage, List.pairwise_append]
    refine ⟨hpw, ?_⟩
    intro r hr
    exact Nat.lt_succ_of_le (hle r hr)

theorem storeInv_runInserts (ops : List (SqlVal × SqlVal × SqlVal × Nat))
    (st : Store) (h : StoreInv st) : StoreInv (runInserts ops st) := by
  induction ops generalizing st with
  | nil => exact h
  | cons op rest ih =>
    exact ih (insOf st op) (storeInv_insert st op.1 op.2.1 op.2.2.1 op.2.2.2 h)

/-! Claim C1. -/

/-- C1, counterexample: register(7, conn 1), register(7, conn 2) leaves
connection 2 registered, but the close-triggered unregister of the stale
connection 1 (whose session userId is still 7) deletes the entry
outright, so lookup(7) afterwards returns nothing, not connection 2. -/
theorem C1_counterexample :
    okUserId c1Step1 = some 7 ∧
    mapGet c1AfterBoth.clients 7 = some 2 ∧
    mapGet (handleClose (okUserId c1Step1) c1AfterBoth).clients 7 = none := by
  decide

/-- C1, amended: the close handler removes the registry mapping for the
session's userId unconditionally — it never compares connection
instances — so after register(u, c1) then register(u, c2), a
close-triggered unregister by either session leaves lookup(u) absent. -/
theorem C1_unregister_unconditional (st : SrvState) (u : Int) (c1 c2 : ConnId)
    (hu : u ≠ 0) :
    mapGet (handleClose (some u)
      { st with clients := mapSet (mapSet st.clients u c1) u c2 }).clients u = none := by
  rw [handleClose_some u _ hu]
  exact mapGet_mapDelete_self _ u

/-- C1, witness: the amended statement at user 7 and connections 1, 2
from the fresh state. -/
theorem C1_witness :
    (7 : Int) ≠ 0 ∧
    mapGet (handleClose (some 7)
      { exState0 with clients := mapSet (mapSet exState0.clients 7 1) 7 2 }).clients 7 = none :=
  ⟨by decide, C1_unregister_unconditional exState0 7 1 2 (by decide)⟩

/-! Claim C2. -/

/-- C2, counterexample: an authenticated session (user 1) submits a send
frame whose content is the empty string and whose receiver identity 2
does not exist among the known users; the message is nevertheless
persisted to the store and a push (the confirmation echo) is delivered
to connection 1. -/
theorem C2_counterexample :
    (2 : Int) ∉ exUsers ∧
    okRows exSendEmpty =
      [{ id := 1, sender_id := .intV 1, receiver_id := .intV 2,
         content := .textV (""), timestamp := 1 }] ∧
    okPushTargets exSendEmpty = [1] := by
  decide

/-- C2, amended: the send branch performs no validation at all — any
send frame from an authenticated session with a numeric receiverId and a
string content, including empty content and receiver identities that do
not exist, is persisted to the store and dispatched (the echo push to
the submitting connection always happens). -/
theorem C2_no_validation (verify : String → Option Int) (isOpen : ConnId → Bool)
    (self : ConnId) (u : Int) (st : SrvState) (now : Nat) (r : Int) (s : String)
    (hu : u ≠ 0) :
    okRows (handleMessage verify isOpen self (some u) st now (some (sendFrame r s))) =
      st.store.rows ++
        [{ id := st.store.seq + 1, sender_id := .intV u, receiver_id := .intV r,
           content := .textV s, timestamp := now / 1000 }] ∧
    self ∈ okPushTargets (handleMessage verify isOpen self (some u) st now (some (sendFrame r s))) ∧
    okClosed (handleMessage verify isOpen self (some u) st now (some (sendFrame r s))) = false := by
  rw [handleMessage_send verify isOpen self u st now r s hu]
  refine ⟨?_, ?_, ?_⟩
  · simp [okRows, Store.insertMessage]
  · simp [okPushTargets, okPushes]
  · simp [okClosed]

/-- C2, witness: the amended statement for user 1 sending empty content
to the nonexistent receiver 2 from the fresh state. -/
theorem C2_witness :
    (1 : Int) ≠ 0 ∧
    (okRows (handleMessage exVerify exOpen 1 (some 1) exState0 1234 (some (sendFrame 2 ("")))) =
      exState0.store.rows ++
        [{ id := exState0.store.seq + 1, sender_id := .intV 1, receiver_id := .intV 2,
           content := .textV (""), timestamp := 1234 / 1000 }] ∧
     1 ∈ okPushTargets (handleMessage exVerify exOpen 1 (some 1) exState0 1234 (some (sendFrame 2 ("")))) ∧
     okClosed (handleMessage exVerify exOpen 1 (some 1) exState0 1234 (some (sendFrame 2 ("")))) = false) :=
  ⟨by decide, C2_no_validation exVerify exOpen 1 1 exState0 1234 2 ("") (by decide)⟩

/-! Claim C3. -/

/-- C3, counterexample: connection 1 authenticates as user 5 and then
re-authenticates as user 6; when its transport closes, only the entry
under the current identity 6 is removed, and the registry entry (5, 1)
still references the closed connection — a dangling entry. -/
theorem C3_counterexample :
    okUserId c3Step2 = some 6 ∧
    c3Final.clients = [(5, 1)] ∧
    mapGet c3Final.clients 5 = some 1 := by
  decide

/-- C3, amended: on transport close, only the mapping under the
session's current userId is removed; a registry entry left under a
previous identity of the same connection survives the close, still
referencing the closed connection. -/
theorem C3_close_keeps_previous_identity (st : SrvState) (u1 u2 : Int) (c : ConnId)
    (h2 : u2 ≠ 0) (hne : u1 ≠ u2) :
    mapGet (handleClose (some u2)
      { st with clients := mapSet (mapSet st.clients u1 c) u2 c }).clients u1 = some c := by
  rw [handleClose_some u2 _ h2]
  rw [mapGet_mapDelete_ne _ u2 u1 hne]
  rw [mapGet_mapSet_ne _ u2 u1 c hne]
  exact mapGet_mapSet_self _ u1 c

/-- C3, witness: the amended statement for identities 5 then 6 on
connection 1 from the fresh state. -/
theorem C3_witness :
    ((6 : Int) ≠ 0 ∧ (5 : Int) ≠ 6) ∧
    mapGet (handleClose (some 6)
      { exState0 with clients := mapSet (mapSet exState0.clients 5 1) 6 1 }).clients 5 = some 1 :=
  ⟨⟨by decide, by decide⟩, C3_close_keeps_previous_identity exState0 5 6 1 (by decide) (by decide)⟩

/-! Claim C4. -/

/-- C4, counterexample: for the send at instant 1234 ms, the pushed
delivery frame carries timestamp isoTimestamp 1234
("1970-01-01T00:00:01.234Z"), while the persisted row's store-assigned
DATETIME text is sqliteTimestamp 1 ("1970-01-01 00:00:01"); the two are
not equal — the session, not the store, produced the pushed timestamp. -/
theorem C4_counterexample :
    okPushedTimestamps exSendEmpty = [isoTimestamp 1234] ∧
    okRowStoredTexts exSendEmpty = [sqliteTimestamp 1] ∧
    isoTimestamp 1234 ≠ sqliteTimestamp 1 := by
  decide

/-- C4, amended: the store does assign the message identity — every
pushed frame of a successful send carries id equal to the store's
freshly assigned row id — but the pushed timestamp is computed by the
session itself as new Date().toISOString(), while the persisted row
carries the store's CURRENT_TIMESTAMP text; the store's timestamp never
reaches the pushed frame. -/
theorem C4_store_owns_id_not_timestamp (verify : String → Option Int)
    (isOpen : ConnId → Bool) (self : ConnId) (u : Int) (st : SrvState)
    (now : Nat) (r : Int) (s : String) (hu : u ≠ 0) :
    (∀ p ∈ okPushes (handleMessage verify isOpen self (some u) st now (some (sendFrame r s))),
        p.2.id = st.store.seq + 1 ∧ p.2.timestamp = isoTimestamp now) ∧
    okRowStoredTexts (handleMessage verify isOpen self (some u) st now (some (sendFrame r s))) =
      (st.store.rows.map (fun x => sqliteTimestamp x.timestamp)) ++
        [sqliteTimestamp (now / 1000)] := by
  rw [handleMessage_send verify isOpen self u st now r s hu]
  constructor
  · intro p hp
    simp only [okPushes, List.mem_append] at hp
    rcases hp with hp | hp
    · cases hm : mapGet st.clients r with
      | none => rw [hm] at hp; simp at hp
      | some rw' =>
        rw [hm] at hp
        by_cases ho : isOpen rw' = true
        · simp [ho] at hp
          rw [hp]
          exact ⟨rfl, rfl⟩
        · simp [ho] at hp
    · simp at hp
      rw [hp]
      exact ⟨rfl, rfl⟩
  · simp [okRowStoredTexts, okRows, Store.insertMessage]

/-- C4, witness: the amended statement's store side at a concrete send:
the stored DATETIME texts gain exactly the store-clock rendering of the
send instant. -/
theorem C4_witness :
    (1 : Int) ≠ 0 ∧
    okRowStoredTexts (handleMessage exVerify exOpen 1 (some 1) exState0 1234 (some (sendFrame 2 ("hi")))) =
      (exState0.store.rows.map (fun x => sqliteTimestamp x.timestamp)) ++
        [sqliteTimestamp (1234 / 1000)] :=
  ⟨by decide,
   (C4_store_owns_id_not_timestamp exVerify exOpen 1 1 exState0 1234 2 ("hi") (by decide)).2⟩

/-! Claim C5. -/

/-- C5: for users A and B, the history query returns exactly the rows
whose sender and receiver are {A, B} in either direction — stated both
as a permutation of the matching rows and as a membership
characterisation — and the returned sequence is ordered by creation
timestamp ascending with ties broken by message identity ascending
(given the store invariant that row ids strictly increase in rowid
order, which every reachable store satisfies). -/
theorem C5_history_exact_and_sorted (st : Store) (A B : Int) (sB : String)
    (hids : st.rows.Pairwise (fun a b => a.id < b.id))
    (hparse : parseIntText sB = some B) :
    (historyQuery st A sB).Perm
        (st.rows.filter (historyPred (.intV A) (.intV B))) ∧
    (∀ r : Row, r ∈ historyQuery st A sB ↔ (r ∈ st.rows ∧
        ((r.sender_id = .intV A ∧ r.receiver_id = .intV B) ∨
         (r.sender_id = .intV B ∧ r.receiver_id = .intV A)))) ∧
    (historyQuery st A sB).Pairwise rowLe := by
  rw [historyQuery_of_parse st A B sB hparse]
  refine ⟨orderByTimestamp_perm _, ?_, ?_⟩
  · intro r
    rw [(orderByTimestamp_perm _).mem_iff, List.mem_filter]
    simp [historyPred, sqlEq_intV_iff]
  · exact orderByTimestamp_pairwise _
      (List.Pairwise.sublist (List.filter_sublist _) hids)

/-- C5, witness: the query for users 1 and 2 over a store with a
timestamp tie and an unrelated third row: the result is a permutation of
the two matching rows and is sorted by timestamp with the tie broken by
id. -/
theorem C5_witness :
    (c5Store.rows.Pairwise (fun a b => a.id < b.id) ∧
      parseIntText ("2") = some 2) ∧
    (historyQuery c5Store 1 ("2")).Perm
        (c5Store.rows.filter (historyPred (.intV 1) (.intV 2))) ∧
    (historyQuery c5Store 1 ("2")).Pairwise rowLe :=
  ⟨⟨by decide, by decide⟩,
   (C5_history_exact_and_sorted c5Store 1 2 ("2") (by decide) (by decide)).1,
   (C5_history_exact_and_sorted c5Store 1 2 ("2") (by decide) (by decide)).2.2⟩

/-! Claim C6. -/

/-- C6, counterexample: user 7's registration was superseded by
connection 2, yet when the stale session on connection 1 sends a
message, the confirmation echo is still pushed to connection 1 — a push
to the sender's own connection although that connection is no longer
the one registered under the sender identity. -/
theorem C6_counterexample :
    okUserId c1Step1 = some 7 ∧
    mapGet c1AfterBoth.clients 7 = some 2 ∧
    okPushTargets c6Send = [1] := by
  decide

/-- C6, amended: for every successful send, the dispatcher always pushes
the message to the submitting session's own connection — without
consulting the registry or the transport state — and pushes it to
another connection exactly when that connection is registered under the
frame's receiverId with an OPEN transport. -/
theorem C6_dispatch_characterization (verify : String → Option Int)
    (isOpen : ConnId → Bool) (self : ConnId) (u : Int) (st : SrvState)
    (now : Nat) (r : Int) (s : String) (hu : u ≠ 0) :
    self ∈ okPushTargets (handleMessage verify isOpen self (some u) st now (some (sendFrame r s))) ∧
    (∀ c : ConnId, c ≠ self →
      (c ∈ okPushTargets (handleMessage verify isOpen self (some u) st now (some (sendFrame r s))) ↔
        (mapGet st.clients r = some c ∧ isOpen c = true))) := by
  rw [handleMessage_send verify isOpen self u st now r s hu]
  constructor
  · simp [okPushTargets, okPushes]
  · intro c hc
    simp only [okPushTargets, okPushes, List.map_append, List.mem_append]
    cases hm : mapGet st.clients r with
    | none => simp [hc]
    | some rw' =>
      by_cases ho : isOpen rw' = true
      · simp [ho, hc]
        constructor
        · intro h; subst h; exact ⟨rfl, ho⟩
        · intro h; exact h.1.symm
      · simp [ho, hc]
        intro h
        rw [← h]
        simpa using ho

/-- C6, witness: the amended statement for the stale session of user 7
on connection 1 sending to the unregistered receiver 9: the echo goes to
connection 1, and connection 2 receives a push exactly when it is
registered under identity 9 with an open transport (it is not). -/
theorem C6_witness :
    (7 : Int) ≠ 0 ∧
    1 ∈ okPushTargets (handleMessage exVerify exOpen 1 (some 7) c1AfterBoth 0 (some (sendFrame 9 ("hi")))) ∧
    (2 ∈ okPushTargets (handleMessage exVerify exOpen 1 (some 7) c1AfterBoth 0 (some (sendFrame 9 ("hi")))) ↔
      (mapGet c1AfterBoth.clients 9 = some 2 ∧ exOpen 2 = true)) :=
  ⟨by decide,
   (C6_dispatch_characterization exVerify exOpen 1 7 c1AfterBoth 0 9 ("hi") (by decide)).1,
   (C6_dispatch_characterization exVerify exOpen 1 7 c1AfterBoth 0 9 ("hi") (by decide)).2 2 (by decide)⟩

/-! Claim C7. -/

/-- C7: the history query is symmetric in its two users — the rows (and
their order) returned for requester A about B equal those returned for
requester B about A. -/
theorem C7_history_symmetric (st : Store) (A B : Int) (sA sB : String)
    (hA : parseIntText sA = some A) (hB : parseIntText sB = some B) :
    historyQuery st A sB = historyQuery st B sA := by
  rw [historyQuery_of_parse st A B sB hB, historyQuery_of_parse st B A sA hA]
  congr 1
  apply List.filter_congr
  intro r _
  simp only [historyPred]
  exact Bool.or_comm _ _

/-- C7, witness: the symmetry at users 1 and 2 over the concrete tie
store. -/
theorem C7_witness :
    (parseIntText ("1") = some 1 ∧ parseIntText ("2") = some 2) ∧
    historyQuery c5Store 1 ("2") = historyQuery c5Store 2 ("1") :=
  ⟨⟨by decide, by decide⟩,
   C7_history_symmetric c5Store 1 2 ("1") ("2") (by decide) (by decide)⟩

/-! Claim C8. -/

/-- C8: across any lifetime of appends from the empty store, assigned
message identities are strictly increasing — the rows carry pairwise
strictly increasing ids in insertion order, and the id the next append
would assign exceeds the id of every row already present. -/
theorem C8_append_ids_strictly_increasing (ops : List (SqlVal × SqlVal × SqlVal × Nat)) :
    (runInserts ops Store.empty).rows.Pairwise (fun a b => a.id < b.id) ∧
    (∀ a b c : SqlVal, ∀ t : Nat, ∀ r ∈ (runInserts ops Store.empty).rows,
      r.id < ((runInserts ops Store.empty).insertMessage a b c t).2) := by
  rcases storeInv_runInserts ops Store.empty storeInv_empty with ⟨hle, hpw⟩
  refine ⟨hpw, ?_⟩
  intro a b c t r hr
  have := hle r hr
  simp only [Store.insertMessage]
  omega

/-! Claim C9. -/

theorem jsPropChecked_ok (j : Json) (k : String) (tv : Option Json)
    (h : jsPropChecked j k = .ok tv) : jsProp j k = tv := by
  cases j <;> simp [jsPropChecked] at h <;> simp [jsProp] at *
  all_goals exact h

/-- C9: an auth frame whose token is a string that fails verification,
or whose token is not a string at all (malformed), makes the session
call ws.close immediately and leaves the session and shared state
unchanged; ws.close is only ever called from the auth branch (any frame
that closes the transport is an auth frame, and if its token is a
string, verification failed on it); and an auth frame whose token
verifies to a nonzero user id transitions the session to that identity
and registers this connection for it, with no close. -/
theorem C9_auth_contract (verify : String → Option Int) (isOpen : ConnId → Bool)
    (self : ConnId) (uid : Option Int) (st : SrvState) (now : Nat) :
    (∀ tok : String, verify tok = none →
      handleMessage verify isOpen self uid st now (some (authFrame tok)) =
        .ok { userId := uid, st := st, pushes := [], closed := true }) ∧
    (∀ j : Json, (∀ t : String, j ≠ Json.str t) →
      handleMessage verify isOpen self uid st now (some (authFrameJ j)) =
        .ok { userId := uid, st := st, pushes := [], closed := true }) ∧
    (∀ j : Json, okClosed (handleMessage verify isOpen self uid st now (some j)) = true →
      (isStrEq (jsProp j ("type")) ("auth")) = true ∧
      (match jsProp j ("token") with
       | some (Json.str t) => verify t = none
       | _ => True)) ∧
    (∀ tok : String, ∀ u2 : Int, verify tok = some u2 → u2 ≠ 0 →
      handleMessage verify isOpen self uid st now (some (authFrame tok)) =
        .ok { userId := some u2,
              st := { st with clients := mapSet st.clients u2 self },
              pushes := [], closed := false }) := by
  refine ⟨?_, ?_, ?_, ?_⟩
  · intro tok hv
    simp [handleMessage, authFrame, authFrameJ, jsPropChecked, jsProp, isStrEq, hv]
  · intro j hne
    cases j <;>
      simp [handleMessage, authFrame, authFrameJ, jsPropChecked, jsProp, isStrEq]
    case str t => exact absurd rfl (hne t)
  · intro j hcl
    cases hjp : jsPropChecked j ("type") with
    | error e =>
      rw [show handleMessage verify isOpen self uid st now (some j) = .error () from by
        simp [handleMessage, hjp]] at hcl
      simp [okClosed] at hcl
    | ok tv =>
      have hjv := jsPropChecked_ok j ("type") tv hjp
      cases hA : isStrEq tv ("auth") with
      | true =>
        refine ⟨by rw [hjv]; exact hA, ?_⟩
        cases hT : jsProp j ("token") with
        | none =>
          simp
        | some tj =>
          cases tj <;> simp
          case str t =>
            cases hv : verify t with
            | none => rfl
            | some u2 =>
              rw [show handleMessage verify isOpen self uid st now (some j) =
                  .ok { userId := some u2,
                        st := { st with clients :=
                          if u2 ≠ 0 then mapSet st.clients u2 self else st.clients },
                        pushes := [], closed := false } from by
                simp [handleMessage, hjp, hA, hT, hv]] at hcl
              simp [okClosed] at hcl
      | false =>
        cases hM : (isStrEq tv ("message") && truthy uid) with
        | false =>
          rw [show handleMessage verify isOpen self uid st now (some j) =
              .ok { userId := uid, st := st, pushes := [], closed := false } from by
            simp [handleMessage, hjp, hA, hM]] at hcl
          simp [okClosed] at hcl
        | true =>
          cases uid with
          | none =>
            simp [truthy, Bool.and_eq_true] at hM
          | some u =>
            rw [show handleMessage verify isOpen self (some u) st now (some j) =
                handleSend isOpen self u st now j from by
              simp [handleMessage, hjp, hA, hM]] at hcl
            rw [okClosed_handleSend] at hcl
            exact absurd hcl (by simp)
  · intro tok u2 hv hu
    simp [handleMessage, authFrame, authFrameJ, jsPropChecked, jsProp, isStrEq, hv, hu]

/-- C9, witness: with the concrete credential store, the bad token
closes the transport; the only-close clause instantiated at the send
frame (whose run does not close) holds; and tok7 authenticates the
session as user 7 and registers connection 1 for it. -/
theorem C9_witness :
    ((exVerify ("bad") = none) ∧ (exVerify ("tok7") = some 7) ∧ ((7 : Int) ≠ 0)) ∧
    handleMessage exVerify exOpen 1 none exState0 0 (some (authFrame ("bad"))) =
      .ok { userId := none, st := exState0, pushes := [], closed := true } ∧
    handleMessage exVerify exOpen 1 none exState0 0 (some (authFrame ("tok7"))) =
      .ok { userId := some 7,
            st := { exState0 with clients := mapSet exState0.clients 7 1 },
            pushes := [], closed := false } :=
  ⟨⟨by decide, by decide, by decide⟩,
   (C9_auth_contract exVerify exOpen 1 none exState0 0).1 ("bad") (by decide),
   (C9_auth_contract exVerify exOpen 1 none exState0 0).2.2.2 ("tok7") 7 (by decide) (by decide)⟩

/-! Claim C10. -/

/-- C10: the inbound frame handler is not total — in every session state,
bytes that are not valid JSON (data none) make the handler raise an
uncaught exception — while a frame that is valid JSON whose type
property reads without error and is neither 'auth' nor 'message' is
ignored: the handler returns normally with the session and shared state
unchanged, no pushes and no close. -/
theorem C10_parse_partiality (verify : String → Option Int) (isOpen : ConnId → Bool)
    (self : ConnId) (uid : Option Int) (st : SrvState) (now : Nat) :
    handleMessage verify isOpen self uid st now none = .error () ∧
    (∀ j : Json, ∀ tv : Option Json, jsPropChecked j ("type") = .ok tv →
      isStrEq tv ("auth") = false → isStrEq tv ("message") = false →
      handleMessage verify isOpen self uid st now (some j) =
        .ok { userId := uid, st := st, pushes := [], closed := false }) := by
  refine ⟨rfl, ?_⟩
  intro j tv hjp hA hM
  simp [handleMessage, hjp, hA, hM]

/-- C10, witness: in the fresh unauthenticated state, non-JSON bytes
raise, while the well-formed ping frame (unrecognised type) is ignored
without any effect. -/
theorem C10_witness :
    (jsPropChecked pingFrame ("type") = .ok (some (Json.str ("ping"))) ∧
      isStrEq (some (Json.str ("ping"))) ("auth") = false ∧
      isStrEq (some (Json.str ("ping"))) ("message") = false) ∧
    handleMessage exVerify exOpen 1 none exState0 0 none = .error () ∧
    handleMessage exVerify exOpen 1 none exState0 0 (some pingFrame) =
      .ok { userId := none, st := exState0, pushes := [], closed := false } :=
  ⟨⟨rfl, rfl, rfl⟩,
   (C10_parse_partiality exVerify exOpen 1 none exState0 0).1,
   (C10_parse_partiality exVerify exOpen 1 none exState0 0).2 pingFrame
     (some (Json.str ("ping"))) rfl rfl rfl⟩

end MaxRelay
